import Mathlib

/-!
Verification of the request-context subsystem of tarpc (context.rs): the
Context data model, the serde and rkyv deadline codecs, and the ambient-store
propagation bridge, shallowly embedded in Lean.

Time is modelled in integer nanoseconds: a SystemTime is a signed offset from
the Unix epoch, a Duration is a nonnegative count of nanoseconds. Ambient
clock reads (SystemTime.now in the source) become explicit parameters, and
the active tracing span becomes an explicit Span value.
-/

namespace Tarpc

/-- The Unix epoch, the zero of the time scale. A point in time (the std
SystemTime type) is modelled as a signed nanosecond offset from the Unix
epoch, an Int; a span of time (the std Duration type) as a nonnegative count
of nanoseconds, a Nat. -/
def UNIX_EPOCH : Int := 0

/-- Models SystemTime.duration_since: ok with the elapsed duration when
`earlier` is not later than `t`, an error (here: none) otherwise. -/
def durationSince (t earlier : Int) : Option Nat :=
  if earlier ≤ t then some (t - earlier).toNat else none

namespace trace

/-- Modelled from the spec: the `trace` module of this repository is not among
the provided sources. A trace context is the triple of a trace id, a span id
and a sampling decision, copied verbatim into any derived context. -/
structure Context where
  trace_id : Nat
  span_id : Nat
  sampling_decision : Bool
deriving DecidableEq, Repr

/-- Modelled from the spec: the default trace context is the empty, unsampled
one, used whenever no trace is active or the active one cannot be read. -/
def Context.default : Context := ⟨0, 0, false⟩

end trace

/-- The request context of context.rs: an absolute deadline and a trace
context. -/
structure Context where
  deadline : Int
  trace_context : trace.Context
deriving DecidableEq, Repr

/-- ten_seconds_from_now from context.rs: the ambient clock reading plus
Duration.from_secs(10), with the clock reading passed explicitly.
Ten seconds is 10000000000 nanoseconds. -/
def ten_seconds_from_now (now : Int) : Int :=
  now + 10000000000

namespace absolute_to_relative_time

/-- serialize from the absolute_to_relative_time serde module: the value put
on the wire is deadline.duration_since(now).unwrap_or(Duration.ZERO), the
ambient clock reading passed explicitly. -/
def serialize (deadline now : Int) : Nat :=
  (durationSince deadline now).getD 0

/-- deserialize from the absolute_to_relative_time serde module: the received
relative duration re-anchored to the receiver clock, now + duration. -/
def deserialize (rel : Nat) (now : Int) : Int :=
  now + (rel : Int)

end absolute_to_relative_time

namespace RkyvSystemTime

/-- serialize_with of the rkyv backend: the value put on the wire is
field.duration_since(UNIX_EPOCH).unwrap_or(Duration.ZERO); no clock read. -/
def serialize_with (field : Int) : Nat :=
  (durationSince field UNIX_EPOCH).getD 0

/-- deserialize_with of the rkyv backend: UNIX_EPOCH + archived duration;
no clock read. -/
def deserialize_with (field : Nat) : Int :=
  UNIX_EPOCH + (field : Int)

end RkyvSystemTime

/-- The structured (serde) wire record of a Context: the deadline travels as a
relative duration, and the field may be absent on receipt (the serde default
attribute supplies ten_seconds_from_now in that case). -/
structure SerdeWireContext where
  deadline : Option Nat
  trace_context : trace.Context
deriving DecidableEq, Repr

/-- Serde encoding of a Context at sender clock reading `now`: the deadline
goes through absolute_to_relative_time.serialize, the trace context is
serialized as is. -/
def Context.serdeSerialize (c : Context) (now : Int) : SerdeWireContext :=
  ⟨some (absolute_to_relative_time.serialize c.deadline now), c.trace_context⟩

/-- Serde decoding of a wire record at receiver clock reading `now`: a present
deadline field goes through absolute_to_relative_time.deserialize, an absent
one becomes ten_seconds_from_now; the trace context is decoded as is. -/
def Context.serdeDeserialize (w : SerdeWireContext) (now : Int) : Context :=
  ⟨match w.deadline with
    | some rel => absolute_to_relative_time.deserialize rel now
    | none => ten_seconds_from_now now,
   w.trace_context⟩

/-- The archival (rkyv) wire record of a Context: the deadline travels as a
duration since the Unix epoch; the field is always present. -/
structure RkyvWireContext where
  deadline : Nat
  trace_context : trace.Context
deriving DecidableEq, Repr

/-- Rkyv encoding of a Context: the deadline goes through
RkyvSystemTime.serialize_with; no clock is read. -/
def Context.rkyvSerialize (c : Context) : RkyvWireContext :=
  ⟨RkyvSystemTime.serialize_with c.deadline, c.trace_context⟩

/-- Rkyv decoding of a wire record: the deadline goes through
RkyvSystemTime.deserialize_with; no clock is read. -/
def Context.rkyvDeserialize (w : RkyvWireContext) : Context :=
  ⟨RkyvSystemTime.deserialize_with w.deadline, w.trace_context⟩

/-- The ambient deadline entry attached to a unit of work (the Deadline
newtype of context.rs). -/
structure Deadline where
  val : Int
deriving DecidableEq, Repr

/-- Deadline.default from context.rs: ten_seconds_from_now, the ambient clock
reading passed explicitly. -/
def Deadline.default (now : Int) : Deadline :=
  ⟨ten_seconds_from_now now⟩

/-- The remote span context installed by set_parent (the opentelemetry
SpanContext): the three propagated trace fields. -/
structure SpanContext where
  trace_id : Nat
  span_id : Nat
  trace_flags : Bool
deriving DecidableEq, Repr

/-- The opentelemetry context attached to a unit of work: an optional remote
span context and an optional ambient Deadline entry. -/
structure OtelContext where
  remote_span : Option SpanContext
  deadline_value : Option Deadline
deriving DecidableEq, Repr

/-- A tracing span, the unit of work, carrying its opentelemetry context. -/
structure Span where
  otel : OtelContext
deriving DecidableEq, Repr

/-- A span with no ambient data, modelling the absence of an active unit of
work: no remote span context and no ambient deadline entry. -/
def Span.empty : Span := ⟨⟨none, none⟩⟩

/-- SpanExt.set_context from context.rs: set_parent replaces the otel context
of the span with a fresh opentelemetry Context holding a remote span context
built verbatim from the three trace context fields, plus the Deadline value
carrying the context deadline. -/
def Span.set_context (_s : Span) (c : Context) : Span :=
  ⟨⟨some ⟨c.trace_context.trace_id, c.trace_context.span_id,
          c.trace_context.sampling_decision⟩,
    some ⟨c.deadline⟩⟩⟩

/-- Modelled from the spec: trace.Context.try_from on a tracing span lives in
the trace module of this repository, which is not among the provided sources.
Per the spec it reads the span context recorded on the unit of work, copies
the trace id, the span id and the sampling decision verbatim, and fails when
the span carries no trace context. -/
def trace.Context.try_from (s : Span) : Except Unit trace.Context :=
  match s.otel.remote_span with
  | some sc => Except.ok ⟨sc.trace_id, sc.span_id, sc.trace_flags⟩
  | none => Except.error ()

/-- Context.current from context.rs: reads the active span; the trace context
falls back to trace.Context.default when the span carries none, and the
deadline entry falls back to Deadline.default. The active span and the
ambient clock reading are passed explicitly. -/
def Context.current (span : Span) (now : Int) : Context :=
  ⟨((span.otel.deadline_value).getD (Deadline.default now)).val,
   match trace.Context.try_from span with
   | Except.ok tc => tc
   | Except.error _ => trace.Context.default⟩

/-- Context.trace_id accessor from context.rs. -/
def Context.trace_id (c : Context) : Nat :=
  c.trace_context.trace_id

/-- The serde serializer emits the truncated difference of deadline and clock
reading: clamped at zero when the deadline already passed. -/
theorem serialize_eq_toNat (d t : Int) :
    absolute_to_relative_time.serialize d t = (d - t).toNat := by
  simp only [absolute_to_relative_time.serialize, durationSince]
  split
  · simp
  · simp only [Option.getD_none]
    omega

/-- The rkyv serializer emits the truncated offset of the deadline from the
Unix epoch: clamped at zero for deadlines before the epoch. -/
theorem rkyv_serialize_eq_toNat (d : Int) :
    RkyvSystemTime.serialize_with d = d.toNat := by
  simp only [RkyvSystemTime.serialize_with, durationSince, UNIX_EPOCH]
  split
  · simp
  · simp only [Option.getD_none]
    omega

end Tarpc

open Tarpc

/-- Claim C1 counterexample: the decoded deadline is not T2 + (D - T1) for
every D, T1, T2: with deadline 0, sender clock 1, receiver clock 0 the code
clamps the emitted duration to zero and decodes to 0, not to -1. -/
theorem C1_counterexample :
    ¬ ∀ (D T1 T2 : Int),
      absolute_to_relative_time.deserialize
        (absolute_to_relative_time.serialize D T1) T2 = T2 + (D - T1) := by
  intro h
  exact absurd (h 0 1 0) (by decide)

/-- Claim C1 (amended): for the serde wire format, encoding at sender clock
T1 and decoding at receiver clock T2 yields deadline T2 + (D - T1) whenever
the deadline D has not passed at encoding time; when it has, the emitted
duration is clamped to zero and the decoded deadline is exactly T2 (still
neither D itself nor anchored to T1). -/
theorem C1_skew_reanchor (D T1 T2 : Int) :
    (T1 ≤ D →
      absolute_to_relative_time.deserialize
        (absolute_to_relative_time.serialize D T1) T2 = T2 + (D - T1)) ∧
    (D ≤ T1 →
      absolute_to_relative_time.deserialize
        (absolute_to_relative_time.serialize D T1) T2 = T2) := by
  simp only [absolute_to_relative_time.deserialize, serialize_eq_toNat]
  omega

/-- Claim C1 witness: deadline 7, sender clock 2, receiver clock 100 decodes
to 105 = 100 + (7 - 2). -/
theorem C1_skew_reanchor_witness :
    absolute_to_relative_time.deserialize
      (absolute_to_relative_time.serialize 7 2) 100 = 100 + (7 - 2 : Int) :=
  (C1_skew_reanchor 7 2 100).1 (by decide)

/-- Claim C2: a deadline at or before the sender clock reading serializes to
the relative duration zero, never a negative value and never an error. -/
theorem C2_expired_serializes_to_zero (D T1 : Int) (h : D ≤ T1) :
    absolute_to_relative_time.serialize D T1 = 0 := by
  rw [serialize_eq_toNat]
  omega

/-- Claim C2 witness: deadline 3 serialized at clock reading 10 gives 0. -/
theorem C2_expired_serializes_to_zero_witness :
    absolute_to_relative_time.serialize 3 10 = 0 :=
  C2_expired_serializes_to_zero 3 10 (by decide)

/-- Claim C3 counterexample: the two codecs are not behaviorally equivalent on
the deadline field: a context deadline of 5 encoded by rkyv decodes to 5
regardless of any clock, while the serde rule at sender clock 0 and receiver
clock 100 yields 105. -/
theorem C3_counterexample :
    RkyvSystemTime.deserialize_with (RkyvSystemTime.serialize_with 5) ≠
      absolute_to_relative_time.deserialize
        (absolute_to_relative_time.serialize 5 0) 100 := by decide

/-- Claim C3 (amended): the rkyv backend does not apply the sender-relative
conversion rule: it serializes the deadline as its offset from the Unix epoch
clamped at zero, and deserializes by adding that duration back to the epoch,
so the decoded deadline is max of the original and the epoch, independent of
both the sender clock and the receiver clock. -/
theorem C3_rkyv_epoch_anchored (D : Int) :
    RkyvSystemTime.serialize_with D = (D - UNIX_EPOCH).toNat ∧
    RkyvSystemTime.deserialize_with (RkyvSystemTime.serialize_with D) =
      max D UNIX_EPOCH := by
  simp only [rkyv_serialize_eq_toNat, RkyvSystemTime.deserialize_with, UNIX_EPOCH]
  omega

/-- Claim C4 counterexample: with an already expired deadline the same-instant
serde round trip moves the deadline up to the shared instant: deadline 0
encoded and decoded at clock reading 10000000000000 (ten thousand seconds
past the deadline) decodes to 10000000000000, a discrepancy of ten thousand
seconds, far beyond clock resolution. -/
theorem C4_counterexample :
    (Context.serdeDeserialize
        (Context.serdeSerialize ⟨0, trace.Context.default⟩ 10000000000000)
        10000000000000).deadline - (0 : Int) > 1000000000 := by decide

/-- Claim C4 (amended): for both wire formats decode(encode(C)) preserves the
trace context exactly; the deadline is recovered exactly by a same-instant
serde round trip when it has not already passed at that instant, and by an
rkyv round trip when it is at or after the Unix epoch; an already expired
deadline is clamped (serde: to the shared instant, rkyv: to the epoch). -/
theorem C4_roundtrip (c : Context) (T : Int) :
    (Context.serdeDeserialize (Context.serdeSerialize c T) T).trace_context =
      c.trace_context ∧
    (Context.rkyvDeserialize (Context.rkyvSerialize c)).trace_context =
      c.trace_context ∧
    (T ≤ c.deadline →
      Context.serdeDeserialize (Context.serdeSerialize c T) T = c) ∧
    (UNIX_EPOCH ≤ c.deadline →
      Context.rkyvDeserialize (Context.rkyvSerialize c) = c) := by
  obtain ⟨d, tc⟩ := c
  refine ⟨rfl, rfl, ?_, ?_⟩ <;> intro h <;>
    simp only [Context.serdeSerialize, Context.serdeDeserialize,
      Context.rkyvSerialize, Context.rkyvDeserialize,
      absolute_to_relative_time.deserialize, RkyvSystemTime.deserialize_with,
      serialize_eq_toNat, rkyv_serialize_eq_toNat, UNIX_EPOCH,
      Context.mk.injEq, and_true] <;>
    simp only [UNIX_EPOCH] at h <;> omega

/-- Claim C4 witness: the context with deadline 5 and trace fields 1, 2, true
survives a same-instant serde round trip at clock reading 3 unchanged. -/
theorem C4_roundtrip_witness :
    (3 : Int) ≤ 5 ∧
    Context.serdeDeserialize
        (Context.serdeSerialize ⟨5, ⟨1, 2, true⟩⟩ 3) 3 = ⟨5, ⟨1, 2, true⟩⟩ :=
  ⟨by decide, (C4_roundtrip ⟨5, ⟨1, 2, true⟩⟩ 3).2.2.1 (by decide)⟩

/-- Claim C5: Context.current never errors and falls back field by field:
when the active span carries no ambient deadline entry the returned deadline
is the receiver clock reading plus ten seconds, and when it carries no trace
context the returned trace context is the default, each fallback independent
of the other field. -/
theorem C5_current_defaults (span : Span) (now : Int) :
    (span.otel.deadline_value = none →
      (Context.current span now).deadline = now + 10000000000) ∧
    (span.otel.remote_span = none →
      (Context.current span now).trace_context = trace.Context.default) := by
  constructor <;> intro h <;>
    simp [Context.current, trace.Context.try_from, h, Deadline.default,
      ten_seconds_from_now]

/-- Claim C5 witness: with no active unit of work (the empty span) at clock
reading 0, current returns deadline 10000000000 and the default trace
context. -/
theorem C5_current_defaults_witness :
    (Context.current Span.empty 0).deadline = 0 + 10000000000 ∧
    (Context.current Span.empty 0).trace_context = trace.Context.default :=
  ⟨(C5_current_defaults Span.empty 0).1 rfl,
   (C5_current_defaults Span.empty 0).2 rfl⟩

/-- Claim C6: when the relative-deadline field is absent in a received serde
wire record, deserialization succeeds and the resulting deadline is ten
seconds after the receiver clock reading at receipt time. -/
theorem C6_missing_field_default (w : SerdeWireContext) (now : Int)
    (h : w.deadline = none) :
    (Context.serdeDeserialize w now).deadline = now + 10000000000 := by
  simp [Context.serdeDeserialize, h, ten_seconds_from_now]

/-- Claim C6 witness: a wire record with an absent deadline field received at
clock reading 5 decodes to deadline 5 + 10000000000. -/
theorem C6_missing_field_default_witness :
    (Context.serdeDeserialize ⟨none, trace.Context.default⟩ 5).deadline =
      5 + 10000000000 :=
  C6_missing_field_default ⟨none, trace.Context.default⟩ 5 rfl

/-- Claim C7: set_context marks the target span as causally descended from
the given trace: it installs a remote span context holding the trace id, span
id and sampling decision copied verbatim, recomputing none of them, and
simultaneously attaches the deadline as the ambient Deadline entry. -/
theorem C7_set_context_verbatim (s : Span) (c : Context) :
    (s.set_context c).otel =
      ⟨some ⟨c.trace_context.trace_id, c.trace_context.span_id,
             c.trace_context.sampling_decision⟩,
       some ⟨c.deadline⟩⟩ := rfl

/-- Claim C8: install then recover through the ambient store: for every
context c, after set_context installs c on a span, Context.current called on
that span returns c exactly, deadline and full trace lineage included,
without c being passed explicitly. -/
theorem C8_install_recover (s : Span) (c : Context) (now : Int) :
    Context.current (s.set_context c) now = c := by
  obtain ⟨d, tid, sid, samp⟩ := c
  rfl

/-- Claim C9: the rkyv codec on its own: a deadline at or after the Unix
epoch is recovered exactly by decode after encode, independent of any clock
reading; a deadline before the epoch is clamped to a zero duration on encode
and decodes to exactly the epoch. -/
theorem C9_rkyv_exact_roundtrip (c : Context) :
    (UNIX_EPOCH ≤ c.deadline →
      Context.rkyvDeserialize (Context.rkyvSerialize c) = c) ∧
    (c.deadline < UNIX_EPOCH →
      (Context.rkyvSerialize c).deadline = 0 ∧
      (Context.rkyvDeserialize (Context.rkyvSerialize c)).deadline =
        UNIX_EPOCH) := by
  obtain ⟨d, tc⟩ := c
  constructor <;> intro h <;>
    simp only [Context.rkyvSerialize, Context.rkyvDeserialize,
      RkyvSystemTime.deserialize_with, rkyv_serialize_eq_toNat, UNIX_EPOCH,
      Context.mk.injEq, and_true] <;>
    simp only [UNIX_EPOCH] at h <;> omega

/-- Claim C9 witness: deadline 7 survives the rkyv round trip exactly, and
deadline -5 encodes to the zero duration. -/
theorem C9_rkyv_exact_roundtrip_witness :
    Context.rkyvDeserialize (Context.rkyvSerialize ⟨7, trace.Context.default⟩) =
      ⟨7, trace.Context.default⟩ ∧
    (Context.rkyvSerialize ⟨-5, trace.Context.default⟩).deadline = 0 :=
  ⟨(C9_rkyv_exact_roundtrip ⟨7, trace.Context.default⟩).1 (by decide),
   ((C9_rkyv_exact_roundtrip ⟨-5, trace.Context.default⟩).2 (by decide)).1⟩
